import Mathlib

/-!
Verification of the hop-js SDK request-dispatch layer.

The embedding models, per operation, which HTTP request a call dispatches
or which client-side error it raises before any network call. Stateful
JavaScript is represented by explicit data: a call site is a pure function
from the client authorization tag and the call arguments to
`Except String Request`, where `Except.error` is a synchronous raise and
`Except.ok` is the single request handed to the API client. JavaScript
truthiness of string arguments (the empty string is falsy) is modelled
explicitly.
-/

namespace HopJs

/-- Authorization scheme tags of the client: bearer, pat, sk. -/
inductive AuthType
  | bearer
  | pat
  | sk
deriving DecidableEq, Repr

/-- HTTP methods used at the modelled call sites. -/
inductive Method
  | GET
  | POST
  | PUT
  | PATCH
  | DELETE
deriving DecidableEq, Repr

/-- Modelled from the spec: container lifecycle state literals (the
API.Ignite.ContainerState enum is declared outside src; the spec names
the fixed literal values STOPPED and PENDING/RUNNING). -/
inductive ContainerState
  | PENDING
  | RUNNING
  | STOPPED
deriving DecidableEq, Repr

/-- Modelled from the spec: the resources block of a deployment config.
The function parseSize is declared outside src, so the ram field is
represented directly by its parsed byte count, the only value the SDK
inspects client-side. -/
structure Resources where
  ram : Nat
deriving DecidableEq, Repr

/-- Modelled from the spec: a deployment config; only the resources block
is inspected client-side, the rest is opaque request-body data. -/
structure DeploymentConfig where
  resources : Resources
deriving DecidableEq, Repr

/-- Request bodies appearing at the modelled call sites. -/
inductive Body
  | config (cfg : DeploymentConfig)
  | state (s : ContainerState)
deriving DecidableEq, Repr

/-- A dispatched request: HTTP method, path template, optional JSON body,
and the flat mapping of path placeholders and query parameters, exactly as
handed to the API client at the call site. -/
structure Request where
  method : Method
  path : String
  body : Option Body
  params : List (String × String)
deriving DecidableEq, Repr

deriving instance DecidableEq for Except

/-- The SIX_MB_IN_BYTES constant of src/src/sdks/ignite.ts line 5. -/
def SIX_MB_IN_BYTES : Nat := 6 * 1024 * 1024

/-- Modelled from the spec: validateId checks that the identifier carries
the expected type-tag followed by an underscore, and never raises
(declared in the rest module, outside src). -/
def validateId (id : String) (kind : String) : Bool :=
  List.isPrefixOf (kind ++ "_").data id.data

/-- Modelled from the spec: the error text of assertId, which raises on a
prefix mismatch instead of returning false (declared outside src). -/
def invalidIdMessage (kind : String) : String :=
  "Invalid identifier: expected kind " ++ kind

/-- JavaScript truthiness of a string: the empty string is falsy. -/
def strTruthy (s : String) : Bool := s != ""

/-- JavaScript truthiness of an optional string argument: undefined and
the empty string are falsy. -/
def optTruthy : Option String → Bool
  | none => false
  | some s => strTruthy s

/-- True when the optional team-ID argument, if present, is a well-formed
team identifier (the TypeScript argument type Id of kind team). -/
def validTeamOpt : Option String → Bool
  | none => true
  | some t => validateId t "team"

/-- True when the call raised (left the function before dispatch). -/
def isError : Except String Request → Bool
  | Except.error _ => true
  | Except.ok _ => false

/-- True when the call dispatched a request. -/
def isOk : Except String Request → Bool
  | Except.error _ => false
  | Except.ok _ => true

/-- Ignite.getAllDeployments, src/src/sdks/ignite.ts lines 17-32: checks
the team-ID policy for the client scheme, then dispatches one GET to
/v1/ignite/deployments whose query carries the team exactly when the
argument is truthy. -/
def getAllDeployments (authType : AuthType) (teamId : Option String) :
    Except String Request :=
  if authType ≠ AuthType.sk ∧ ¬ optTruthy teamId then
    Except.error "Team ID is required for Bearer or PAT authorization"
  else if authType = AuthType.sk ∧ optTruthy teamId then
    Except.error "Team ID is not required for secret authorization"
  else
    Except.ok
      { method := Method.GET
        path := "/v1/ignite/deployments"
        body := none
        params :=
          if optTruthy teamId then [("team", teamId.getD "")] else [] }

/-- Ignite.updateContainerState, src/src/sdks/ignite.ts lines 34-45: one
PATCH to /v1/ignite/containers/:container_id/state with the given state
literal as body. -/
def updateContainerState (container : String) (state : ContainerState) :
    Request :=
  { method := Method.PATCH
    path := "/v1/ignite/containers/:container_id/state"
    body := some (Body.state state)
    params := [("container_id", container)] }

/-- The hop.ignite.containers.stop facade closure, part_000 lines 77-82:
the list of requests one call issues. It is a pure function of the
container ID alone: no local container state is read or stored. -/
def containersStop (container : String) : List Request :=
  [updateContainerState container ContainerState.STOPPED]

/-- The hop.ignite.containers.start facade closure, part_000 lines 84-89. -/
def containersStart (container : String) : List Request :=
  [updateContainerState container ContainerState.RUNNING]

/-- The first argument of createDeployment: a team-ID string or a config
object (the source branches on typeof configOrTeam being object). -/
inductive TeamOrConfig
  | team (t : String)
  | config (c : DeploymentConfig)
deriving DecidableEq, Repr

/-- The shared tail of Ignite.createDeployment, src/src/sdks/ignite.ts
lines 101-116: the RAM floor check, then one POST to
/v1/ignite/deployments with the config as body and the team as query when
truthy. -/
def createDeploymentTail (config : DeploymentConfig) (team : Option String) :
    Except String Request :=
  if config.resources.ram ≤ SIX_MB_IN_BYTES then
    Except.error
      "Allocated memory must be greater than 6MB when creating a deployment."
  else
    Except.ok
      { method := Method.POST
        path := "/v1/ignite/deployments"
        body := some (Body.config config)
        params := if optTruthy team then [("team", team.getD "")] else [] }

/-- Ignite.createDeployment, src/src/sdks/ignite.ts lines 69-116: resolves
the overloaded first argument against the client scheme, raising on every
mismatched shape, then runs the RAM floor check and dispatches. -/
def createDeployment (authType : AuthType) (configOrTeam : TeamOrConfig)
    (bearerOrPatConfig : Option DeploymentConfig) : Except String Request :=
  match configOrTeam with
  | TeamOrConfig.config c =>
    if authType = AuthType.sk then
      createDeploymentTail c none
    else
      Except.error
        "First argument must be the team ID when using bearer authorization to create deployments."
  | TeamOrConfig.team t =>
    match bearerOrPatConfig with
    | none =>
      Except.error
        "Second argument must be the deployment config when using bearer authorization to create deployments."
    | some cfg =>
      if authType = AuthType.bearer ∨ authType = AuthType.pat then
        createDeploymentTail cfg (some t)
      else
        Except.error
          "Only argument must be the config when using secret authorization to create deployments."

/-- The dual-mode dispatch tail of Ignite.getDeployment,
src/src/sdks/ignite.ts lines 174-190: a direct get-by-ID request when the
name-or-ID validates as a deployment ID, the search-by-name request
otherwise. -/
def getDeploymentDispatch (team : Option String) (realNameOrId : String) :
    Except String Request :=
  if validateId realNameOrId "deployment" then
    Except.ok
      { method := Method.GET
        path := "/v1/ignite/deployments/:deployment_id"
        body := none
        params :=
          if optTruthy team then
            [("team", team.getD ""), ("deployment_id", realNameOrId)]
          else
            [("deployment_id", realNameOrId)] }
  else
    Except.ok
      { method := Method.GET
        path := "/v1/ignite/deployments/search"
        body := none
        params := [("name", realNameOrId)] }

/-- Ignite.getDeployment, src/src/sdks/ignite.ts lines 151-191: resolves
the overloaded arguments against the client scheme (asserting the team
identifier under bearer or pat), then dispatches in dual mode. -/
def getDeployment (authType : AuthType) (teamOrNameOrId : String)
    (nameOrId : Option String) : Except String Request :=
  if strTruthy teamOrNameOrId ∧ optTruthy nameOrId then
    if authType = AuthType.sk then
      Except.error "Team ID is not required for secret authorization"
    else if validateId teamOrNameOrId "team" then
      getDeploymentDispatch (some teamOrNameOrId) (nameOrId.getD "")
    else
      Except.error (invalidIdMessage "team")
  else if strTruthy teamOrNameOrId ∧ ¬ optTruthy nameOrId then
    if authType ≠ AuthType.sk then
      Except.error "Team ID is required for bearer or PAT authorization"
    else
      getDeploymentDispatch none teamOrNameOrId
  else
    Except.error "Team ID is required for bearer or PAT authorization"

/-- Ignite.getDeployments, src/unnamed/part_001 lines 155-172: the second
implementation of the list-deployments operation; note its first guard
tests only the bearer tag, not pat. -/
def getDeployments (authType : AuthType) (teamId : Option String) :
    Except String Request :=
  if authType = AuthType.bearer ∧ ¬ optTruthy teamId then
    Except.error "Team ID is required for Bearer or PAT authorization"
  else if optTruthy teamId ∧ authType = AuthType.sk then
    Except.error "Team ID is not required for secret authorization"
  else
    Except.ok
      { method := Method.GET
        path := "/v1/ignite/deployments"
        body := none
        params :=
          if optTruthy teamId then [("team", teamId.getD "")] else [] }

/-- Modelled from the spec: the credential is a tagged union of three
variants (spec section 3, Authorization); the concrete credential string
representations and APIClient.getAuthType live outside src. -/
inductive APIAuthorization
  | bearer (token : String)
  | pat (token : String)
  | sk (key : String)
deriving DecidableEq, Repr

/-- Modelled from the spec: classify inspects the shape of the credential
and returns the scheme tag (APIClient.getAuthType, declared outside src). -/
def getAuthType : APIAuthorization → AuthType
  | APIAuthorization.bearer _ => AuthType.bearer
  | APIAuthorization.pat _ => AuthType.pat
  | APIAuthorization.sk _ => AuthType.sk

/-- The Hop client state relevant to the claims: part_000 lines 36-39
compute authType once in the constructor via APIClient.getAuthType and
store it in a readonly field; no other code writes it. -/
structure Hop where
  authType : AuthType
deriving DecidableEq, Repr

/-- The Hop constructor, part_000 lines 38-48. -/
def Hop.make (authorization : APIAuthorization) : Hop :=
  { authType := getAuthType authorization }

/-- What the callIndex-th later operation of a client instance observes as
the scheme tag: it reads the stored readonly field, which no operation
writes. -/
def Hop.observedAuthType (h : Hop) (_callIndex : Nat) : AuthType :=
  h.authType

/-- The SDK instances held privately by the Hop aggregate (part_000 lines
41-48). -/
inductive SdkName
  | ignite
  | user
  | pipe
  | projects
  | registry
  | channels
deriving DecidableEq, Repr

/-- The receiver a facade method is bound to in the Hop constructor:
either one of the private SDK instances in this.sdks, or the public
this.ignite facade field (which is still undefined while the constructor
is evaluating the object literal assigned to it). -/
inductive Receiver
  | sdk (s : SdkName)
  | facadeIgniteField
deriving DecidableEq, Repr

/-- One bind call of the Hop constructor: the dotted facade entry name,
the SDK whose method is taken, and the receiver passed to bind. -/
structure FacadeEntry where
  entry : String
  owner : SdkName
  receiver : Receiver
deriving DecidableEq, Repr

/-- The bind table of the Hop constructor, transcribed from part_000 lines
50-140. The containers.stop and containers.start entries are arrow
closures rather than bind calls and are modelled separately as
containersStop and containersStart. -/
def hopFacade : List FacadeEntry :=
  [ { entry := "ignite.deployments.create", owner := SdkName.ignite,
      receiver := Receiver.sdk SdkName.ignite }
  , { entry := "ignite.deployments.delete", owner := SdkName.ignite,
      receiver := Receiver.sdk SdkName.ignite }
  , { entry := "ignite.deployments.getAll", owner := SdkName.ignite,
      receiver := Receiver.sdk SdkName.ignite }
  , { entry := "ignite.deployments.get", owner := SdkName.ignite,
      receiver := Receiver.sdk SdkName.ignite }
  , { entry := "ignite.deployments.getContainers", owner := SdkName.ignite,
      receiver := Receiver.sdk SdkName.ignite }
  , { entry := "ignite.deployments.gateways.getAll", owner := SdkName.ignite,
      receiver := Receiver.sdk SdkName.ignite }
  , { entry := "ignite.deployments.gateways.create", owner := SdkName.ignite,
      receiver := Receiver.sdk SdkName.ignite }
  , { entry := "ignite.gateways.get", owner := SdkName.ignite,
      receiver := Receiver.facadeIgniteField }
  , { entry := "ignite.gateways.addDomain", owner := SdkName.ignite,
      receiver := Receiver.sdk SdkName.ignite }
  , { entry := "ignite.containers.create", owner := SdkName.ignite,
      receiver := Receiver.sdk SdkName.ignite }
  , { entry := "ignite.containers.delete", owner := SdkName.ignite,
      receiver := Receiver.sdk SdkName.ignite }
  , { entry := "ignite.containers.getLogs", owner := SdkName.ignite,
      receiver := Receiver.sdk SdkName.ignite }
  , { entry := "users.me.get", owner := SdkName.user,
      receiver := Receiver.sdk SdkName.user }
  , { entry := "users.me.pats.create", owner := SdkName.user,
      receiver := Receiver.sdk SdkName.user }
  , { entry := "users.me.pats.delete", owner := SdkName.user,
      receiver := Receiver.sdk SdkName.user }
  , { entry := "users.me.pats.getAll", owner := SdkName.user,
      receiver := Receiver.sdk SdkName.user }
  , { entry := "projects.projectTokens.delete", owner := SdkName.projects,
      receiver := Receiver.sdk SdkName.projects }
  , { entry := "projects.projectTokens.get", owner := SdkName.projects,
      receiver := Receiver.sdk SdkName.projects }
  , { entry := "projects.projectTokens.create", owner := SdkName.projects,
      receiver := Receiver.sdk SdkName.projects }
  , { entry := "projects.secrets.create", owner := SdkName.projects,
      receiver := Receiver.sdk SdkName.projects }
  , { entry := "projects.secrets.getAll", owner := SdkName.projects,
      receiver := Receiver.sdk SdkName.projects }
  , { entry := "projects.secrets.delete", owner := SdkName.projects,
      receiver := Receiver.sdk SdkName.projects }
  , { entry := "projects.getAllMembers", owner := SdkName.projects,
      receiver := Receiver.sdk SdkName.projects }
  , { entry := "projects.getCurrentMember", owner := SdkName.projects,
      receiver := Receiver.sdk SdkName.projects }
  , { entry := "pipe.streams.getAll", owner := SdkName.pipe,
      receiver := Receiver.sdk SdkName.pipe }
  , { entry := "registry.images.getAll", owner := SdkName.registry,
      receiver := Receiver.sdk SdkName.registry }
  , { entry := "channels.create", owner := SdkName.channels,
      receiver := Receiver.sdk SdkName.ignite }
  , { entry := "channels.tokens.create", owner := SdkName.channels,
      receiver := Receiver.sdk SdkName.channels }
  ]

/-! Helper lemmas shared by the claim theorems. -/

/-- A well-formed team identifier is a nonempty string, hence truthy. -/
theorem validTeam_truthy {t : String} (h : validateId t "team" = true) :
    strTruthy t = true := by
  rcases eq_or_ne t "" with rfl | hne
  · exact absurd h (by decide)
  · simpa [strTruthy] using hne

/-- Unfolding of the optional team validity check at a present argument. -/
theorem validTeamOpt_some {t : String} (h : validTeamOpt (some t) = true) :
    validateId t "team" = true := by
  simpa [validTeamOpt] using h

/-! Scratch checks of the embedding on concrete inputs. -/

example : validateId "deployment_abc123" "deployment" = true := by decide

example : validateId "team_abc123" "deployment" = false := by decide

example :
    isError (getAllDeployments AuthType.bearer none) = true := by decide

example :
    isOk (getDeployment AuthType.sk "my-app-name" none) = true := by decide

/-- C1: in every call shape that reaches the dual-mode lookup (a single
truthy name-or-ID under an sk client, or a valid team ID plus a truthy
name-or-ID under a bearer or pat client), getDeployment dispatches the
direct get-by-ID request GET /v1/ignite/deployments/:deployment_id with
deployment_id equal to the argument exactly when validateId of the
argument at kind deployment holds, and otherwise dispatches the
search-by-name request GET /v1/ignite/deployments/search with name equal
to the argument; a string matching the deployment ID pattern is never
sent down the search path. -/
theorem getDeployment_dual_mode (authType : AuthType) (t s : String)
    (hsk : authType ≠ AuthType.sk) (ht : validateId t "team" = true)
    (hs : strTruthy s = true) :
    getDeployment AuthType.sk s none =
      (if validateId s "deployment" then
        Except.ok
          { method := Method.GET
            path := "/v1/ignite/deployments/:deployment_id"
            body := none
            params := [("deployment_id", s)] }
      else
        Except.ok
          { method := Method.GET
            path := "/v1/ignite/deployments/search"
            body := none
            params := [("name", s)] }) ∧
    getDeployment authType t (some s) =
      (if validateId s "deployment" then
        Except.ok
          { method := Method.GET
            path := "/v1/ignite/deployments/:deployment_id"
            body := none
            params := [("team", t), ("deployment_id", s)] }
      else
        Except.ok
          { method := Method.GET
            path := "/v1/ignite/deployments/search"
            body := none
            params := [("name", s)] }) := by
  have htt : strTruthy t = true := validTeam_truthy ht
  refine ⟨?_, ?_⟩
  · simp [getDeployment, getDeploymentDispatch, hs, optTruthy]
  · simp [getDeployment, getDeploymentDispatch, hs, htt, ht, hsk, optTruthy]

/-- Witness for C1 at concrete inputs: an ID-shaped argument goes to the
get-by-ID path and a plain name goes to the search path. -/
theorem getDeployment_dual_mode_witness :
    (AuthType.bearer ≠ AuthType.sk ∧
      validateId "team_abc" "team" = true ∧
      strTruthy "deployment_x" = true ∧
      strTruthy "my-app" = true) ∧
    getDeployment AuthType.sk "deployment_x" none =
      (if validateId "deployment_x" "deployment" then
        Except.ok
          { method := Method.GET
            path := "/v1/ignite/deployments/:deployment_id"
            body := none
            params := [("deployment_id", "deployment_x")] }
      else
        Except.ok
          { method := Method.GET
            path := "/v1/ignite/deployments/search"
            body := none
            params := [("name", "deployment_x")] }) ∧
    getDeployment AuthType.bearer "team_abc" (some "my-app") =
      (if validateId "my-app" "deployment" then
        Except.ok
          { method := Method.GET
            path := "/v1/ignite/deployments/:deployment_id"
            body := none
            params := [("team", "team_abc"), ("deployment_id", "my-app")] }
      else
        Except.ok
          { method := Method.GET
            path := "/v1/ignite/deployments/search"
            body := none
            params := [("name", "my-app")] }) :=
  ⟨⟨by decide, by decide, by decide, by decide⟩,
    (getDeployment_dual_mode AuthType.bearer "team_abc" "deployment_x"
      (by decide) (by decide) (by decide)).1,
    (getDeployment_dual_mode AuthType.bearer "team_abc" "my-app"
      (by decide) (by decide) (by decide)).2⟩

/-- C2: in both shapes that reach the RAM floor check, createDeployment
raises the client-side allocation error exactly when the parsed RAM of
the config is at most SIX_MB_IN_BYTES, and otherwise dispatches the POST
/v1/ignite/deployments request; in particular exactly 6 MiB raises and
6 MiB plus one byte dispatches (see the witness). -/
theorem createDeployment_ram_floor (c : DeploymentConfig) (t : String)
    (a : AuthType) (ha : a = AuthType.bearer ∨ a = AuthType.pat) :
    (c.resources.ram ≤ SIX_MB_IN_BYTES →
      createDeployment AuthType.sk (TeamOrConfig.config c) none =
        Except.error
          "Allocated memory must be greater than 6MB when creating a deployment." ∧
      createDeployment a (TeamOrConfig.team t) (some c) =
        Except.error
          "Allocated memory must be greater than 6MB when creating a deployment.") ∧
    (SIX_MB_IN_BYTES < c.resources.ram →
      createDeployment AuthType.sk (TeamOrConfig.config c) none =
        Except.ok
          { method := Method.POST
            path := "/v1/ignite/deployments"
            body := some (Body.config c)
            params := [] } ∧
      createDeployment a (TeamOrConfig.team t) (some c) =
        Except.ok
          { method := Method.POST
            path := "/v1/ignite/deployments"
            body := some (Body.config c)
            params := if strTruthy t then [("team", t)] else [] }) := by
  constructor
  · intro h
    rcases ha with rfl | rfl <;>
      simp [createDeployment, createDeploymentTail, h, optTruthy]
  · intro h
    rcases ha with rfl | rfl <;>
      simp [createDeployment, createDeploymentTail, Nat.not_le.mpr h, optTruthy]

/-- Witness for C2 at the boundary: a config of exactly 6 MiB raises and
a config of 6 MiB plus one byte dispatches. -/
theorem createDeployment_ram_floor_witness :
    ((6 * 1024 * 1024 : Nat) ≤ SIX_MB_IN_BYTES ∧
      SIX_MB_IN_BYTES < (6 * 1024 * 1024 + 1 : Nat)) ∧
    createDeployment AuthType.sk
        (TeamOrConfig.config { resources := { ram := 6 * 1024 * 1024 } }) none =
      Except.error
        "Allocated memory must be greater than 6MB when creating a deployment." ∧
    createDeployment AuthType.sk
        (TeamOrConfig.config { resources := { ram := 6 * 1024 * 1024 + 1 } }) none =
      Except.ok
        { method := Method.POST
          path := "/v1/ignite/deployments"
          body := some (Body.config { resources := { ram := 6 * 1024 * 1024 + 1 } })
          params := [] } :=
  ⟨⟨by decide, by decide⟩,
    ((createDeployment_ram_floor { resources := { ram := 6 * 1024 * 1024 } }
      "team_t" AuthType.bearer (Or.inl rfl)).1 (by decide)).1,
    ((createDeployment_ram_floor { resources := { ram := 6 * 1024 * 1024 + 1 } }
      "team_t" AuthType.bearer (Or.inl rfl)).2 (by decide)).1⟩

/-- C3: createDeployment raises before dispatch whenever the argument
shape disagrees with the client scheme: a team ID first argument under an
sk client raises with or without a config second argument, and a config
object alone under a bearer or pat client raises; the matching shapes
(team plus config under bearer or pat, config alone under sk) reach
dispatch once the RAM floor passes. -/
theorem createDeployment_shape_policy (t : String) (c : DeploymentConfig)
    (oc : Option DeploymentConfig) (a : AuthType)
    (ha : a = AuthType.bearer ∨ a = AuthType.pat)
    (hram : SIX_MB_IN_BYTES < c.resources.ram) :
    isError (createDeployment AuthType.sk (TeamOrConfig.team t) oc) = true ∧
    isError (createDeployment a (TeamOrConfig.config c) none) = true ∧
    isOk (createDeployment a (TeamOrConfig.team t) (some c)) = true ∧
    isOk (createDeployment AuthType.sk (TeamOrConfig.config c) none) = true := by
  have hle := Nat.not_le.mpr hram
  rcases ha with rfl | rfl <;> cases oc <;>
    simp [createDeployment, createDeploymentTail, isError, isOk, hle]

/-- Witness for C3 at concrete inputs. -/
theorem createDeployment_shape_policy_witness :
    ((AuthType.bearer = AuthType.bearer ∨ AuthType.bearer = AuthType.pat) ∧
      SIX_MB_IN_BYTES <
        (DeploymentConfig.mk (Resources.mk (6 * 1024 * 1024 + 1))).resources.ram) ∧
    isError (createDeployment AuthType.sk (TeamOrConfig.team "team_t") none)
      = true ∧
    isError
      (createDeployment AuthType.bearer
        (TeamOrConfig.config (DeploymentConfig.mk (Resources.mk (6 * 1024 * 1024 + 1))))
        none) = true ∧
    isOk
      (createDeployment AuthType.bearer (TeamOrConfig.team "team_t")
        (some (DeploymentConfig.mk (Resources.mk (6 * 1024 * 1024 + 1))))) = true ∧
    isOk
      (createDeployment AuthType.sk
        (TeamOrConfig.config (DeploymentConfig.mk (Resources.mk (6 * 1024 * 1024 + 1))))
        none) = true :=
  ⟨⟨Or.inl rfl, by decide⟩,
    createDeployment_shape_policy "team_t"
      (DeploymentConfig.mk (Resources.mk (6 * 1024 * 1024 + 1))) none
      AuthType.bearer (Or.inl rfl) (by decide)⟩

/-- C4: for every optional well-formed team ID argument, getAllDeployments
raises before dispatch when the scheme is bearer or pat and no team ID is
supplied, and when the scheme is sk and one is supplied; in every other
case it dispatches GET /v1/ignite/deployments with the team query
parameter present exactly when a team ID was supplied. -/
theorem getAllDeployments_policy (a : AuthType) (teamId : Option String)
    (hv : validTeamOpt teamId = true) :
    (a ≠ AuthType.sk → teamId = none →
      getAllDeployments a teamId =
        Except.error "Team ID is required for Bearer or PAT authorization") ∧
    (a = AuthType.sk → ∀ t, teamId = some t →
      getAllDeployments a teamId =
        Except.error "Team ID is not required for secret authorization") ∧
    (a = AuthType.sk → teamId = none →
      getAllDeployments a teamId =
        Except.ok
          { method := Method.GET
            path := "/v1/ignite/deployments"
            body := none
            params := [] }) ∧
    (a ≠ AuthType.sk → ∀ t, teamId = some t →
      getAllDeployments a teamId =
        Except.ok
          { method := Method.GET
            path := "/v1/ignite/deployments"
            body := none
            params := [("team", t)] }) := by
  refine ⟨?_, ?_, ?_, ?_⟩
  · rintro hns rfl
    simp [getAllDeployments, optTruthy, hns]
  · rintro rfl t rfl
    have htt : strTruthy t = true := validTeam_truthy (validTeamOpt_some hv)
    simp [getAllDeployments, optTruthy, htt]
  · rintro rfl rfl
    simp [getAllDeployments, optTruthy]
  · rintro hns t rfl
    have htt : strTruthy t = true := validTeam_truthy (validTeamOpt_some hv)
    simp [getAllDeployments, optTruthy, htt, hns]

/-- Witness for C4: a bearer client with a team ID dispatches with the
team query parameter; the same client without one raises. -/
theorem getAllDeployments_policy_witness :
    (validTeamOpt (some "team_abc") = true ∧
      validTeamOpt (none : Option String) = true ∧
      AuthType.bearer ≠ AuthType.sk) ∧
    getAllDeployments AuthType.bearer (some "team_abc") =
      Except.ok
        { method := Method.GET
          path := "/v1/ignite/deployments"
          body := none
          params := [("team", "team_abc")] } ∧
    getAllDeployments AuthType.bearer none =
      Except.error "Team ID is required for Bearer or PAT authorization" :=
  ⟨⟨by decide, by decide, by decide⟩,
    (getAllDeployments_policy AuthType.bearer (some "team_abc")
      (by decide)).2.2.2 (by decide) "team_abc" rfl,
    (getAllDeployments_policy AuthType.bearer none (by decide)).1
      (by decide) rfl⟩

/-- C5: getDeployment enforces its team-ID policy synchronously before
dispatch: an sk client given two truthy arguments raises; a bearer or pat
client given a single truthy argument raises; and a bearer or pat client
given two truthy arguments whose first is not team-prefixed raises via
the asserting identifier check. -/
theorem getDeployment_team_policy (a : AuthType) (x y : String)
    (hx : strTruthy x = true) (hy : strTruthy y = true)
    (ha : a ≠ AuthType.sk) :
    getDeployment AuthType.sk x (some y) =
      Except.error "Team ID is not required for secret authorization" ∧
    getDeployment a x none =
      Except.error "Team ID is required for bearer or PAT authorization" ∧
    (validateId x "team" = false →
      getDeployment a x (some y) = Except.error (invalidIdMessage "team")) := by
  refine ⟨?_, ?_, ?_⟩
  · simp [getDeployment, optTruthy, hx, hy]
  · simp [getDeployment, optTruthy, hx, ha]
  · intro hbad
    simp [getDeployment, optTruthy, hx, hy, ha, hbad]

/-- Witness for C5 at concrete inputs. -/
theorem getDeployment_team_policy_witness :
    (strTruthy "my-team" = true ∧ strTruthy "my-app" = true ∧
      AuthType.pat ≠ AuthType.sk ∧ validateId "my-team" "team" = false) ∧
    getDeployment AuthType.sk "my-team" (some "my-app") =
      Except.error "Team ID is not required for secret authorization" ∧
    getDeployment AuthType.pat "my-team" none =
      Except.error "Team ID is required for bearer or PAT authorization" ∧
    getDeployment AuthType.pat "my-team" (some "my-app") =
      Except.error (invalidIdMessage "team") :=
  ⟨⟨by decide, by decide, by decide, by decide⟩,
    (getDeployment_team_policy AuthType.pat "my-team" "my-app"
      (by decide) (by decide) (by decide)).1,
    (getDeployment_team_policy AuthType.pat "my-team" "my-app"
      (by decide) (by decide) (by decide)).2.1,
    (getDeployment_team_policy AuthType.pat "my-team" "my-app"
      (by decide) (by decide) (by decide)).2.2 (by decide)⟩

/-- C6: the container lifecycle wrappers are single fire-and-forget
transitions with fixed literal states: stop issues exactly one PATCH
/v1/ignite/containers/:container_id/state request with body state STOPPED
and start exactly one with body state RUNNING; both are pure functions of
the container ID alone, so no local container state is read or stored. -/
theorem containers_stop_start_fixed_state (c : String) :
    containersStop c =
      [ { method := Method.PATCH
          path := "/v1/ignite/containers/:container_id/state"
          body := some (Body.state ContainerState.STOPPED)
          params := [("container_id", c)] } ] ∧
    containersStart c =
      [ { method := Method.PATCH
          path := "/v1/ignite/containers/:container_id/state"
          body := some (Body.state ContainerState.RUNNING)
          params := [("container_id", c)] } ] ∧
    (containersStop c).length = 1 ∧ (containersStart c).length = 1 :=
  ⟨rfl, rfl, rfl, rfl⟩

/-- C7: the scheme tag is computed once from the credential at
construction, is the single correct tag for each credential variant, and
every later operation of the same client instance observes that same
tag. -/
theorem authType_fixed_at_construction (cred : APIAuthorization)
    (i j : Nat) :
    (Hop.make cred).observedAuthType i = getAuthType cred ∧
    (Hop.make cred).observedAuthType i = (Hop.make cred).observedAuthType j ∧
    (∀ tok, getAuthType (APIAuthorization.bearer tok) = AuthType.bearer) ∧
    (∀ tok, getAuthType (APIAuthorization.pat tok) = AuthType.pat) ∧
    (∀ key, getAuthType (APIAuthorization.sk key) = AuthType.sk) :=
  ⟨rfl, rfl, fun _ => rfl, fun _ => rfl, fun _ => rfl⟩

/-- C8: the bind table of the Hop constructor violates the own-instance
binding property at two entries: ignite.gateways.get is bound to the
public this.ignite facade field (still undefined while the constructor
evaluates the literal assigned to it) instead of the ignite SDK instance,
and channels.create is bound to the ignite SDK instance instead of the
channels SDK instance; hence not every facade method is bound to the SDK
instance that defines it. -/
theorem facade_binding_mismatch :
    ({ entry := "ignite.gateways.get", owner := SdkName.ignite,
       receiver := Receiver.facadeIgniteField } : FacadeEntry) ∈ hopFacade ∧
    ({ entry := "channels.create", owner := SdkName.channels,
       receiver := Receiver.sdk SdkName.ignite } : FacadeEntry) ∈ hopFacade ∧
    ¬ (∀ e ∈ hopFacade, e.receiver = Receiver.sdk e.owner) := by decide

/-- C9 counterexample: the two list-deployments implementations disagree
under a pat client with no team ID argument: getAllDeployments raises
while getDeployments dispatches. -/
theorem list_deployments_impls_differ :
    isError (getAllDeployments AuthType.pat none) = true ∧
    isError (getDeployments AuthType.pat none) = false ∧
    getAllDeployments AuthType.pat none ≠ getDeployments AuthType.pat none := by
  decide

/-- C9 amended: for every scheme and every optional well-formed team ID
argument other than a pat client with no team ID, the two implementations
are extensionally equal: they raise the same error or dispatch the same
GET /v1/ignite/deployments request with the same parameters. -/
theorem list_deployments_impls_agree (a : AuthType) (teamId : Option String)
    (hv : validTeamOpt teamId = true)
    (h : ¬ (a = AuthType.pat ∧ teamId = none)) :
    getAllDeployments a teamId = getDeployments a teamId := by
  cases teamId with
  | none =>
    cases a with
    | bearer => decide
    | pat => exact absurd ⟨rfl, rfl⟩ h
    | sk => decide
  | some t =>
    have htt : strTruthy t = true := validTeam_truthy (validTeamOpt_some hv)
    cases a <;> simp [getAllDeployments, getDeployments, optTruthy, htt]

/-- Witness for the amended C9 at concrete inputs. -/
theorem list_deployments_impls_agree_witness :
    (validTeamOpt (some "team_abc") = true ∧
      ¬ (AuthType.bearer = AuthType.pat ∧ (some "team_abc" : Option String) = none)) ∧
    getAllDeployments AuthType.bearer (some "team_abc") =
      getDeployments AuthType.bearer (some "team_abc") :=
  ⟨⟨by decide, by decide⟩,
    list_deployments_impls_agree AuthType.bearer (some "team_abc")
      (by decide) (by decide)⟩

/-- C10 counterexample: at the empty string as team argument, a bearer
client dispatches the POST with an empty parameter mapping rather than
with the team query parameter set to the empty string, because the call
site tests the team value for truthiness before adding it. -/
theorem createDeployment_empty_team_counterexample :
    createDeployment AuthType.bearer (TeamOrConfig.team "")
        (some { resources := { ram := SIX_MB_IN_BYTES + 1 } }) =
      Except.ok
        { method := Method.POST
          path := "/v1/ignite/deployments"
          body := some (Body.config { resources := { ram := SIX_MB_IN_BYTES + 1 } })
          params := [] } ∧
    ([] : List (String × String)) ≠ [("team", "")] := by decide

/-- C10 amended: createDeployment never inspects the prefix of its
team-ID argument: under a bearer or pat client, for every nonempty string
t (team-prefixed or not) and every config whose parsed RAM exceeds
SIX_MB_IN_BYTES, createDeployment dispatches POST /v1/ignite/deployments
with the team query parameter equal to t and raises no identifier error,
unlike getDeployment, which asserts the team prefix before dispatch (for
the empty string the call still dispatches, with an empty parameter
mapping). -/
theorem createDeployment_skips_team_assert (a : AuthType) (t : String)
    (c : DeploymentConfig) (y : String)
    (ha : a = AuthType.bearer ∨ a = AuthType.pat)
    (hram : SIX_MB_IN_BYTES < c.resources.ram)
    (ht : strTruthy t = true) (hy : strTruthy y = true) :
    createDeployment a (TeamOrConfig.team t) (some c) =
      Except.ok
        { method := Method.POST
          path := "/v1/ignite/deployments"
          body := some (Body.config c)
          params := [("team", t)] } ∧
    (validateId t "team" = false →
      isError (getDeployment a t (some y)) = true) := by
  have hle := Nat.not_le.mpr hram
  have hans : a ≠ AuthType.sk := by rcases ha with rfl | rfl <;> decide
  refine ⟨?_, ?_⟩
  · rcases ha with rfl | rfl <;>
      simp [createDeployment, createDeploymentTail, hle, optTruthy, ht]
  · intro hbad
    simp [getDeployment, optTruthy, ht, hy, hans, hbad, isError]

/-- Witness for the amended C10 at a non-team-prefixed nonempty team
argument. -/
theorem createDeployment_skips_team_assert_witness :
    ((AuthType.bearer = AuthType.bearer ∨ AuthType.bearer = AuthType.pat) ∧
      SIX_MB_IN_BYTES <
        (DeploymentConfig.mk (Resources.mk (SIX_MB_IN_BYTES + 1))).resources.ram ∧
      strTruthy "not-a-team-id" = true ∧ strTruthy "my-app" = true ∧
      validateId "not-a-team-id" "team" = false) ∧
    createDeployment AuthType.bearer (TeamOrConfig.team "not-a-team-id")
        (some (DeploymentConfig.mk (Resources.mk (SIX_MB_IN_BYTES + 1)))) =
      Except.ok
        { method := Method.POST
          path := "/v1/ignite/deployments"
          body := some (Body.config (DeploymentConfig.mk (Resources.mk (SIX_MB_IN_BYTES + 1))))
          params := [("team", "not-a-team-id")] } ∧
    isError (getDeployment AuthType.bearer "not-a-team-id" (some "my-app"))
      = true :=
  ⟨⟨Or.inl rfl, by decide, by decide, by decide, by decide⟩,
    (createDeployment_skips_team_assert AuthType.bearer "not-a-team-id"
      (DeploymentConfig.mk (Resources.mk (SIX_MB_IN_BYTES + 1))) "my-app"
      (Or.inl rfl) (by decide) (by decide) (by decide)).1,
    (createDeployment_skips_team_assert AuthType.bearer "not-a-team-id"
      (DeploymentConfig.mk (Resources.mk (SIX_MB_IN_BYTES + 1))) "my-app"
      (Or.inl rfl) (by decide) (by decide) (by decide)).2 (by decide)⟩

end HopJs
